import Mathlib

/-!
Shallow embedding of `src/TP10/apple_mps.py`, a linear benchmark script that
times one matrix multiplication on CPU and one on the MPS accelerator.

Modelling choices:
* The torch pseudo-random generator is a `Nat` state; `torch.manual_seed n`
  sets it to `n`, and each `torch.rand(r, c)` call records the current state
  in the freshly allocated tensor and advances the state by one.  Tensor
  values are any deterministic function of the recorded state and the index,
  so element-wise facts are proved for an arbitrary interpretation
  `f : Nat → Nat → Nat → ℚ` of the generator.
* `time.time()` is an oracle `clock : Nat → ℚ` indexed by the call number.
* Execution is a trace of events (prints, allocations, matmuls, clock reads)
  in the source order; printed lines are a structured `Line` type with a
  `render` function giving the exact strings of the source.
-/

namespace AppleMps

inductive Device where
  | cpu
  | mps
deriving DecidableEq, Repr

structure Tensor where
  rows : Nat
  cols : Nat
  gen : Nat
  device : Device
deriving DecidableEq, Repr

/-- `t.to('mps')`: move a tensor to a device; shape and values unchanged. -/
def Tensor.to (t : Tensor) (d : Device) : Tensor :=
  { t with device := d }

/-- The fixed seed constant `1234` passed to `torch.manual_seed`. -/
def seedConstant : Nat := 1234

/-- `torch.rand(r, c)` at generator state `g`: a fresh host tensor recording
`g`, together with the advanced generator state. -/
def torchRand (g : Nat) (r c : Nat) : Tensor × Nat :=
  (⟨r, c, g, Device.cpu⟩, g + 1)

/-- The element at `(i, j)` of a tensor, under an interpretation `f` of the
generator: a deterministic function of the recorded state and the index. -/
def Tensor.val (f : Nat → Nat → Nat → ℚ) (t : Tensor) (i j : Nat) : ℚ :=
  f t.gen i j

/-- Element-wise equality of two tensors under interpretation `f`. -/
def elemWiseEq (f : Nat → Nat → Nat → ℚ) (t u : Tensor) : Prop :=
  t.rows = u.rows ∧ t.cols = u.cols ∧
    ∀ i j, i < t.rows → j < t.cols → Tensor.val f t i j = Tensor.val f u i j

/-- The lines the script can print. -/
inductive Line where
  | found
  | deviceLine
  | benchmarking
  | cpuDur (d : ℚ)
  | mpsDur (d : ℚ)
  | notFound
deriving DecidableEq

/-- The exact text of each printed line as in the source. -/
def Line.render : Line → String
  | Line.found => "MPS device found!"
  | Line.deviceLine => "MPS device:  mps"
  | Line.benchmarking => "Benchmarking..."
  | Line.cpuDur d => "CPU : --- " ++ toString d ++ " seconds ---"
  | Line.mpsDur d => "MPS : --- " ++ toString d ++ " seconds ---"
  | Line.notFound => "MPS device not found."

/-- One observable step of the script. -/
inductive Event where
  | print (l : Line)
  | alloc (t : Tensor)
  | matmul (a b : Tensor)
  | clockRead (t : ℚ)
deriving DecidableEq

def printOf : Event → Option Line
  | Event.print l => some l
  | _ => none

def allocOf : Event → Option Tensor
  | Event.alloc t => some t
  | _ => none

/-- The lines printed by a trace, in order. -/
def outputLines (tr : List Event) : List Line :=
  tr.filterMap printOf

/-- The tensors allocated by a trace, in order. -/
def allocatedTensors (tr : List Event) : List Tensor :=
  tr.filterMap allocOf

def isCpuDurLine : Line → Bool
  | Line.cpuDur _ => true
  | _ => false

def isMpsDurLine : Line → Bool
  | Line.mpsDur _ => true
  | _ => false

def isAllocEv : Event → Bool
  | Event.alloc _ => true
  | _ => false

def isMatmulEv : Event → Bool
  | Event.matmul _ _ => true
  | _ => false

def isClockReadEv : Event → Bool
  | Event.clockRead _ => true
  | _ => false

/-- `TENSOR_A_CPU = torch.rand(size, size)` right after `manual_seed(1234)`. -/
def TENSOR_A_CPU (size : Nat) : Tensor :=
  (torchRand seedConstant size size).1

/-- `TENSOR_B_CPU = torch.rand(size, size)`, the second draw after seeding. -/
def TENSOR_B_CPU (size : Nat) : Tensor :=
  (torchRand (torchRand seedConstant size size).2 size size).1

/-- `TENSOR_A_MPS = torch.rand(size, size).to('mps')` after re-seeding. -/
def TENSOR_A_MPS (size : Nat) : Tensor :=
  Tensor.to (torchRand seedConstant size size).1 Device.mps

/-- `TENSOR_B_MPS = torch.rand(size, size).to('mps')`, second draw after re-seeding. -/
def TENSOR_B_MPS (size : Nat) : Tensor :=
  Tensor.to (torchRand (torchRand seedConstant size size).2 size size).1 Device.mps

/-- Generator state when the warm-up loop starts: after the two draws that
follow the second `manual_seed(1234)`. -/
def warmupStartGen (size : Nat) : Nat :=
  (torchRand (torchRand seedConstant size size).2 size size).2

/-- The warm-up loop:
`for _ in range(n): torch.matmul(torch.rand(500,500).to('mps'), torch.rand(500,500).to('mps'))`,
starting at generator state `g`.  Each iteration allocates two fresh 500×500
tensors, moves them to MPS, multiplies them, and discards the result. -/
def warmupTrace : Nat → Nat → List Event
  | _, 0 => []
  | g, Nat.succ n =>
    let a := Tensor.to (torchRand g 500 500).1 Device.mps
    let b := Tensor.to (torchRand (g + 1) 500 500).1 Device.mps
    Event.alloc a :: Event.alloc b :: Event.matmul a b ::
      warmupTrace (g + 2) n

/-- `benchmark_mps(size, warmpup)`: seed, allocate the CPU pair, re-seed,
allocate the MPS pair, optionally warm up, then time one CPU matmul and one
MPS matmul, printing each elapsed duration. -/
def benchmark_mps (clock : Nat → ℚ) (size : Nat) (warmpup : Bool) : List Event :=
  Event.alloc (TENSOR_A_CPU size) ::
  Event.alloc (TENSOR_B_CPU size) ::
  Event.alloc (TENSOR_A_MPS size) ::
  Event.alloc (TENSOR_B_MPS size) ::
  ((if warmpup then warmupTrace (warmupStartGen size) 100 else []) ++
   [Event.clockRead (clock 0),
    Event.matmul (TENSOR_A_CPU size) (TENSOR_B_CPU size),
    Event.clockRead (clock 1),
    Event.print (Line.cpuDur (clock 1 - clock 0)),
    Event.clockRead (clock 2),
    Event.matmul (TENSOR_A_MPS size) (TENSOR_B_MPS size),
    Event.clockRead (clock 3),
    Event.print (Line.mpsDur (clock 3 - clock 2))])

/-- The module-level availability guard, parameterised over the arguments the
guard would pass to `benchmark_mps` (used for the spec scenarios). -/
def scriptWith (mpsAvailable : Bool) (clock : Nat → ℚ) (size : Nat)
    (warmpup : Bool) : List Event :=
  if mpsAvailable then
    Event.print Line.found ::
    Event.print Line.deviceLine ::
    Event.print Line.benchmarking ::
    benchmark_mps clock size warmpup
  else
    [Event.print Line.notFound]

/-- The script as written: the guard calls `benchmark_mps()` with its default
arguments `size=10000`, `warmpup=True`. -/
def script (mpsAvailable : Bool) (clock : Nat → ℚ) : List Event :=
  scriptWith mpsAvailable clock 10000 true

/-- Events that were executed before the first clock read: everything the
timed windows exclude (allocation, seeding, warm-up). -/
def preTimingEvents (tr : List Event) : List Event :=
  tr.takeWhile (fun e => !isClockReadEv e)

/-- Split a trace at its clock reads; `segsByRead tr` lists the segments of
events strictly between consecutive clock reads (plus the segment before the
first read at the head). -/
def segsByRead : List Event → List (List Event)
  | [] => [[]]
  | e :: tr =>
    if isClockReadEv e then [] :: segsByRead tr
    else
      match segsByRead tr with
      | [] => [[e]]
      | s :: rest => (e :: s) :: rest

/-- The segments between consecutive clock reads, first-read onward. -/
def timedSegments (tr : List Event) : List (List Event) :=
  (segsByRead tr).tail

/-- Straight-line exception semantics: run a trace against a failure oracle
(indexed by event number); the first failing event aborts execution with its
error, and with no handler anywhere the error is the final result. -/
def runE (oracle : Nat → Option String) : Nat → List Event → Except String (List Event)
  | _, [] => Except.ok []
  | k, e :: tr =>
    match oracle k with
    | some msg => Except.error msg
    | none => (runE oracle (k + 1) tr).map (fun rest => e :: rest)

/-- The parameter names of `def benchmark_mps(size=10000, warmpup=True)`. -/
def benchmark_mps_params : List String := ["size", "warmpup"]

/-- Python call semantics for a keyword argument: the name must match a
declared parameter exactly, else the call raises a `TypeError`. -/
def acceptsKeywordArgument (kw : String) : Bool :=
  benchmark_mps_params.contains kw

/-- A call `benchmark_mps(**\x7bkw: b\x7d)` intending to set the warm-up flag:
binds the flag only when `kw` is the declared name `warmpup`; an undeclared
keyword raises a `TypeError` before the body runs. -/
def callWarmupKeyword (clock : Nat → ℚ) (kw : String) (b : Bool) :
    Except String (List Event) :=
  if kw = "warmpup" then
    Except.ok (benchmark_mps clock 10000 b)
  else if acceptsKeywordArgument kw then
    Except.ok (benchmark_mps clock 10000 true)
  else
    Except.error ("benchmark_mps() got an unexpected keyword argument " ++ kw)

theorem printOf_print (l : Line) : printOf (Event.print l) = some l := rfl

theorem printOf_alloc (t : Tensor) : printOf (Event.alloc t) = none := rfl

theorem printOf_matmul (a b : Tensor) : printOf (Event.matmul a b) = none := rfl

theorem printOf_clockRead (t : ℚ) : printOf (Event.clockRead t) = none := rfl

theorem allocOf_print (l : Line) : allocOf (Event.print l) = none := rfl

theorem allocOf_alloc (t : Tensor) : allocOf (Event.alloc t) = some t := rfl

theorem allocOf_matmul (a b : Tensor) : allocOf (Event.matmul a b) = none := rfl

theorem allocOf_clockRead (t : ℚ) : allocOf (Event.clockRead t) = none := rfl

theorem outputLines_warmup (n g : Nat) : outputLines (warmupTrace g n) = [] := by
  induction n generalizing g with
  | zero => rfl
  | succ n ih =>
    simp only [warmupTrace, outputLines, List.filterMap_cons, printOf_alloc,
      printOf_matmul]
    exact ih (g + 2)

theorem warmup_no_clockRead (n g : Nat) :
    ∀ e ∈ warmupTrace g n, isClockReadEv e = false := by
  induction n generalizing g with
  | zero => intro e he; simp [warmupTrace] at he
  | succ n ih =>
    intro e he
    simp only [warmupTrace, List.mem_cons] at he
    rcases he with rfl | rfl | rfl | he
    · rfl
    · rfl
    · rfl
    · exact ih (g + 2) e he

theorem warmup_matmul_count (n g : Nat) :
    (warmupTrace g n).countP isMatmulEv = n := by
  induction n generalizing g with
  | zero => rfl
  | succ n ih =>
    simp only [warmupTrace, List.countP_cons]
    rw [ih (g + 2)]
    rfl

theorem warmup_operands (n g : Nat) :
    ∀ a b, Event.matmul a b ∈ warmupTrace g n →
      a.rows = 500 ∧ a.cols = 500 ∧ a.device = Device.mps ∧ g ≤ a.gen ∧
      b.rows = 500 ∧ b.cols = 500 ∧ b.device = Device.mps ∧ g ≤ b.gen := by
  induction n generalizing g with
  | zero => intro a b h; simp [warmupTrace] at h
  | succ n ih =>
    intro a b h
    simp only [warmupTrace, List.mem_cons] at h
    rcases h with h | h | h | h
    · exact absurd h (by simp)
    · exact absurd h (by simp)
    · obtain ⟨ha, hb⟩ := Event.matmul.inj h
      subst ha; subst hb
      refine ⟨rfl, rfl, rfl, Nat.le_refl _, rfl, rfl, rfl, Nat.le_succ _⟩
    · obtain ⟨h1, h2, h3, h4, h5, h6, h7, h8⟩ := ih (g + 2) a b h
      exact ⟨h1, h2, h3, Nat.le_trans (by omega) h4,
             h5, h6, h7, Nat.le_trans (by omega) h8⟩

theorem takeWhile_append_all {α : Type} (p : α → Bool) (xs ys : List α)
    (h : ∀ x ∈ xs, p x = true) :
    (xs ++ ys).takeWhile p = xs ++ ys.takeWhile p := by
  induction xs with
  | nil => rfl
  | cons x xs ih =>
    simp only [List.cons_append, List.takeWhile_cons]
    rw [h x (List.mem_cons_self x xs),
      ih (fun y hy => h y (List.mem_cons_of_mem x hy))]
    simp

theorem segsByRead_tail_cons (e : Event) (tr : List Event)
    (h : isClockReadEv e = false) :
    (segsByRead (e :: tr)).tail = (segsByRead tr).tail := by
  simp only [segsByRead, h, Bool.false_eq_true, if_false]
  cases segsByRead tr with
  | nil => rfl
  | cons s rest => rfl

theorem segsByRead_tail_append (xs tr : List Event)
    (h : ∀ e ∈ xs, isClockReadEv e = false) :
    (segsByRead (xs ++ tr)).tail = (segsByRead tr).tail := by
  induction xs with
  | nil => rfl
  | cons x xs ih =>
    rw [List.cons_append,
      segsByRead_tail_cons x (xs ++ tr) (h x (List.mem_cons_self x xs))]
    exact ih (fun e he => h e (List.mem_cons_of_mem x he))

/-- The output of `benchmark_mps` is exactly the CPU duration line followed by
the MPS duration line, each duration a difference of consecutive clock reads. -/
theorem benchmark_output (clock : Nat → ℚ) (size : Nat) (warmpup : Bool) :
    outputLines (benchmark_mps clock size warmpup) =
      [Line.cpuDur (clock 1 - clock 0), Line.mpsDur (clock 3 - clock 2)] := by
  cases warmpup with
  | false =>
    simp [benchmark_mps, outputLines, printOf_alloc, printOf_matmul,
      printOf_clockRead, printOf_print]
  | true =>
    simp only [benchmark_mps, if_true, outputLines, List.filterMap_cons,
      printOf_alloc, List.filterMap_append]
    rw [show (warmupTrace (warmupStartGen size) 100).filterMap printOf = [] from
      outputLines_warmup 100 (warmupStartGen size)]
    simp [printOf_matmul, printOf_clockRead, printOf_print]

/-- Everything before the first clock read is the four allocations followed by
the warm-up trace (empty when the flag is false). -/
theorem preTiming_benchmark (clock : Nat → ℚ) (size : Nat) (warmpup : Bool) :
    preTimingEvents (benchmark_mps clock size warmpup) =
      Event.alloc (TENSOR_A_CPU size) ::
      Event.alloc (TENSOR_B_CPU size) ::
      Event.alloc (TENSOR_A_MPS size) ::
      Event.alloc (TENSOR_B_MPS size) ::
      (if warmpup then warmupTrace (warmupStartGen size) 100 else []) := by
  have hwarm : ∀ x ∈ (if warmpup then warmupTrace (warmupStartGen size) 100 else []),
      (fun e => !isClockReadEv e) x = true := by
    intro x hx
    cases warmpup with
    | false => simp at hx
    | true =>
      simp only [if_true] at hx
      simp [warmup_no_clockRead 100 (warmupStartGen size) x hx]
  simp only [preTimingEvents, benchmark_mps, List.takeWhile_cons]
  rw [takeWhile_append_all _ _ _ hwarm]
  simp [isClockReadEv, isAllocEv]

/-- The segments between the four clock reads: first timed window holds only
the CPU matmul, then its print; second timed window holds only the MPS
matmul, then its print. -/
theorem timedSegments_benchmark (clock : Nat → ℚ) (size : Nat) (warmpup : Bool) :
    timedSegments (benchmark_mps clock size warmpup) =
      [[Event.matmul (TENSOR_A_CPU size) (TENSOR_B_CPU size)],
       [Event.print (Line.cpuDur (clock 1 - clock 0))],
       [Event.matmul (TENSOR_A_MPS size) (TENSOR_B_MPS size)],
       [Event.print (Line.mpsDur (clock 3 - clock 2))]] := by
  have hpre : ∀ e ∈ (Event.alloc (TENSOR_A_CPU size) ::
      Event.alloc (TENSOR_B_CPU size) ::
      Event.alloc (TENSOR_A_MPS size) ::
      Event.alloc (TENSOR_B_MPS size) ::
      (if warmpup then warmupTrace (warmupStartGen size) 100 else [])),
      isClockReadEv e = false := by
    intro e he
    simp only [List.mem_cons] at he
    rcases he with rfl | rfl | rfl | rfl | he
    · rfl
    · rfl
    · rfl
    · rfl
    · cases warmpup with
      | false => simp at he
      | true =>
        simp only [if_true] at he
        exact warmup_no_clockRead 100 (warmupStartGen size) e he
  have hdecomp : benchmark_mps clock size warmpup =
      (Event.alloc (TENSOR_A_CPU size) ::
       Event.alloc (TENSOR_B_CPU size) ::
       Event.alloc (TENSOR_A_MPS size) ::
       Event.alloc (TENSOR_B_MPS size) ::
       (if warmpup then warmupTrace (warmupStartGen size) 100 else [])) ++
      [Event.clockRead (clock 0),
       Event.matmul (TENSOR_A_CPU size) (TENSOR_B_CPU size),
       Event.clockRead (clock 1),
       Event.print (Line.cpuDur (clock 1 - clock 0)),
       Event.clockRead (clock 2),
       Event.matmul (TENSOR_A_MPS size) (TENSOR_B_MPS size),
       Event.clockRead (clock 3),
       Event.print (Line.mpsDur (clock 3 - clock 2))] := by
    simp [benchmark_mps]
  rw [timedSegments, hdecomp, segsByRead_tail_append _ _ hpre]
  rfl

/-- The first four allocations of `benchmark_mps` are the four named tensors,
whatever the warm-up flag. -/
theorem allocated_take4 (clock : Nat → ℚ) (size : Nat) (warmpup : Bool) :
    (allocatedTensors (benchmark_mps clock size warmpup)).take 4 =
      [TENSOR_A_CPU size, TENSOR_B_CPU size,
       TENSOR_A_MPS size, TENSOR_B_MPS size] := by
  simp only [allocatedTensors, benchmark_mps, List.filterMap_cons,
    allocOf_alloc]
  rfl

theorem runE_none (tr : List Event) :
    ∀ c, runE (fun _ => none) c tr = Except.ok tr := by
  induction tr with
  | nil => intro c; rfl
  | cons e tr ih =>
    intro c
    simp only [runE, ih (c + 1)]
    rfl

theorem runE_single_fail (msg : String) (tr : List Event) :
    ∀ c k, k < tr.length →
      runE (fun i => if i = c + k then some msg else none) c tr =
        Except.error msg := by
  induction tr with
  | nil => intro c k h; simp at h
  | cons e tr ih =>
    intro c k h
    cases k with
    | zero => simp [runE]
    | succ k =>
      have hne : ¬ (c = c + (k + 1)) := by omega
      simp only [runE, if_neg hne]
      have hc : c + (k + 1) = (c + 1) + k := by omega
      rw [hc, ih (c + 1) k (by simpa using h)]
      rfl

/-- The output of the guard's available branch: the three banner lines then
the two duration lines. -/
theorem scriptWith_output (clock : Nat → ℚ) (size : Nat) (w : Bool) :
    outputLines (scriptWith true clock size w) =
      [Line.found, Line.deviceLine, Line.benchmarking,
       Line.cpuDur (clock 1 - clock 0), Line.mpsDur (clock 3 - clock 2)] := by
  have hb := benchmark_output clock size w
  simp only [outputLines] at hb ⊢
  simp only [scriptWith, if_true, List.filterMap_cons, printOf_print, hb]

/-- C1: the two output paths are mutually exclusive: when the accelerator is
available the script prints exactly one CPU duration line and exactly one MPS
duration line; when it is unavailable it prints only "MPS device not found."
and performs no allocation, no warm-up or timed multiplication, and no clock
read. -/
theorem c1_output_paths_exclusive (clock : Nat → ℚ) :
    ((outputLines (script true clock)).countP isCpuDurLine = 1 ∧
     (outputLines (script true clock)).countP isMpsDurLine = 1) ∧
    (outputLines (script false clock) = [Line.notFound] ∧
     (script false clock).countP isAllocEv = 0 ∧
     (script false clock).countP isMatmulEv = 0 ∧
     (script false clock).countP isClockReadEv = 0) := by
  refine ⟨⟨?_, ?_⟩, rfl, rfl, rfl, rfl⟩
  · rw [script, scriptWith_output clock 10000 true]
    rfl
  · rw [script, scriptWith_output clock 10000 true]
    rfl

/-- C1 witness: the two conclusions at the constant-zero clock. -/
theorem c1_output_paths_exclusive_witness :
    (outputLines (script true (fun _ => 0))).countP isCpuDurLine = 1 ∧
    outputLines (script false (fun _ => 0)) = [Line.notFound] :=
  ⟨(c1_output_paths_exclusive (fun _ => 0)).1.1,
   (c1_output_paths_exclusive (fun _ => 0)).2.1⟩

/-- C2: after seeding with 1234, allocating the host pair, re-seeding with
1234 and allocating the accelerator pair, the pairs are element-wise equal
(for every interpretation `f` of the generator draws), before any operation
is applied to them. -/
theorem c2_seed_reproducibility (f : Nat → Nat → Nat → ℚ) (size : Nat)
    (h : 0 < size) :
    elemWiseEq f (TENSOR_A_CPU size) (TENSOR_A_MPS size) ∧
    elemWiseEq f (TENSOR_B_CPU size) (TENSOR_B_MPS size) :=
  ⟨⟨rfl, rfl, fun _ _ _ _ => rfl⟩, ⟨rfl, rfl, fun _ _ _ _ => rfl⟩⟩

/-- C2 witness: the first conjunct at `size = 1` and a concrete
interpretation of the generator. -/
theorem c2_seed_reproducibility_witness :
    elemWiseEq (fun g _ _ => (g : ℚ)) (TENSOR_A_CPU 1) (TENSOR_A_MPS 1) :=
  (c2_seed_reproducibility (fun g _ _ => (g : ℚ)) 1 (by decide)).1

/-- C3 counterexample: in the scenario `size = 4`, accelerator available,
`warmup = false`, the script prints five lines, not four as the claim
states. -/
theorem c3_four_lines_counterexample :
    ¬ (outputLines (scriptWith true (fun _ => 0) 4 false)).length = 4 := by
  decide

/-- C3 amended: in the scenario `size = 4`, accelerator available,
`warmup = false`, the output has five lines — found message, device line,
"Benchmarking...", then the "CPU : ..." and "MPS : ..." duration lines — in
exactly that order. -/
theorem c3_five_lines_in_order (clock : Nat → ℚ) :
    outputLines (scriptWith true clock 4 false) =
      [Line.found, Line.deviceLine, Line.benchmarking,
       Line.cpuDur (clock 1 - clock 0), Line.mpsDur (clock 3 - clock 2)] ∧
    (outputLines (scriptWith true clock 4 false)).length = 5 := by
  refine ⟨scriptWith_output clock 4 false, ?_⟩
  rw [scriptWith_output clock 4 false]
  rfl

/-- C3 witness: the amended line count at the constant-zero clock. -/
theorem c3_five_lines_in_order_witness :
    (outputLines (scriptWith true (fun _ => 0) 4 false)).length = 5 :=
  (c3_five_lines_in_order (fun _ => 0)).2

/-- C4: with the warm-up flag true exactly 100 multiplications of fresh
500×500 accelerator matrices happen before the first clock read; with the
flag false none do; and in both cases the routine prints a valid CPU duration
line and a valid MPS duration line. -/
theorem c4_warmup_loop (clock : Nat → ℚ) (size : Nat) :
    (preTimingEvents (benchmark_mps clock size true)).countP isMatmulEv = 100 ∧
    (∀ a b, Event.matmul a b ∈ preTimingEvents (benchmark_mps clock size true) →
      a.rows = 500 ∧ a.cols = 500 ∧ a.device = Device.mps ∧
      b.rows = 500 ∧ b.cols = 500 ∧ b.device = Device.mps) ∧
    (preTimingEvents (benchmark_mps clock size false)).countP isMatmulEv = 0 ∧
    (∀ w : Bool, outputLines (benchmark_mps clock size w) =
      [Line.cpuDur (clock 1 - clock 0), Line.mpsDur (clock 3 - clock 2)]) := by
  refine ⟨?_, ?_, ?_, fun w => benchmark_output clock size w⟩
  · rw [preTiming_benchmark clock size true]
    simp only [if_true, List.countP_cons]
    rw [warmup_matmul_count 100 (warmupStartGen size)]
    rfl
  · intro a b hab
    rw [preTiming_benchmark clock size true] at hab
    simp only [List.mem_cons, if_true] at hab
    rcases hab with h | h | h | h | h
    · exact Event.noConfusion h
    · exact Event.noConfusion h
    · exact Event.noConfusion h
    · exact Event.noConfusion h
    · obtain ⟨h1, h2, h3, _, h5, h6, h7, _⟩ :=
        warmup_operands 100 (warmupStartGen size) a b h
      exact ⟨h1, h2, h3, h5, h6, h7⟩
  · rw [preTiming_benchmark clock size false]
    rfl

/-- C4 witness: the warm-up multiplication counts at a concrete clock and
size. -/
theorem c4_warmup_loop_witness :
    (preTimingEvents (benchmark_mps (fun _ => 0) 4 true)).countP isMatmulEv = 100 ∧
    (preTimingEvents (benchmark_mps (fun _ => 0) 4 false)).countP isMatmulEv = 0 :=
  ⟨(c4_warmup_loop (fun _ => 0) 4).1, (c4_warmup_loop (fun _ => 0) 4).2.2.1⟩

/-- C5: each timed window contains only its single multiplication (the start
read immediately precedes the matmul and the stop read immediately follows
it — no allocation, seeding or warm-up lies inside a window), the printed
durations are exactly the differences of the enclosing clock reads, and the
two timed multiplications read only the four pre-allocated tensors — neither
result is used afterward. -/
theorem c5_timed_windows (clock : Nat → ℚ) (size : Nat) (w : Bool) :
    timedSegments (benchmark_mps clock size w) =
      [[Event.matmul (TENSOR_A_CPU size) (TENSOR_B_CPU size)],
       [Event.print (Line.cpuDur (clock 1 - clock 0))],
       [Event.matmul (TENSOR_A_MPS size) (TENSOR_B_MPS size)],
       [Event.print (Line.mpsDur (clock 3 - clock 2))]] ∧
    (benchmark_mps clock size w).take 4 =
      [Event.alloc (TENSOR_A_CPU size), Event.alloc (TENSOR_B_CPU size),
       Event.alloc (TENSOR_A_MPS size), Event.alloc (TENSOR_B_MPS size)] :=
  ⟨timedSegments_benchmark clock size w, rfl⟩

/-- C5 witness: the timed-window decomposition at a concrete clock and
size. -/
theorem c5_timed_windows_witness :
    timedSegments (benchmark_mps (fun _ => 0) 4 false) =
      [[Event.matmul (TENSOR_A_CPU 4) (TENSOR_B_CPU 4)],
       [Event.print (Line.cpuDur ((fun _ : Nat => (0 : ℚ)) 1 - (fun _ : Nat => (0 : ℚ)) 0))],
       [Event.matmul (TENSOR_A_MPS 4) (TENSOR_B_MPS 4)],
       [Event.print (Line.mpsDur ((fun _ : Nat => (0 : ℚ)) 3 - (fun _ : Nat => (0 : ℚ)) 2))]] :=
  (c5_timed_windows (fun _ => 0) 4 false).1

theorem four_tensor_gens (size : Nat) :
    (TENSOR_A_CPU size).gen = seedConstant ∧
    (TENSOR_B_CPU size).gen = seedConstant + 1 ∧
    (TENSOR_A_MPS size).gen = seedConstant ∧
    (TENSOR_B_MPS size).gen = seedConstant + 1 :=
  ⟨rfl, rfl, rfl, rfl⟩

theorem warmupStartGen_eq (size : Nat) :
    warmupStartGen size = seedConstant + 2 := rfl

/-- A tensor whose generator stamp postdates the warm-up start is none of the
four timed tensors. -/
theorem warmup_tensor_fresh (size : Nat) (t : Tensor)
    (h : warmupStartGen size ≤ t.gen) :
    t ∉ [TENSOR_A_CPU size, TENSOR_B_CPU size,
         TENSOR_A_MPS size, TENSOR_B_MPS size] := by
  rw [warmupStartGen_eq] at h
  intro hmem
  simp only [List.mem_cons, List.not_mem_nil, or_false] at hmem
  obtain ⟨h1, h2, h3, h4⟩ := four_tensor_gens size
  rcases hmem with rfl | rfl | rfl | rfl
  · omega
  · omega
  · omega
  · omega

/-- C6: after the four timed tensors are allocated nothing mutates them: the
two timed multiplications read exactly the tensors as allocated, and every
other multiplication in the trace (the warm-up loop) only touches fresh
throwaway tensors distinct from all four. -/
theorem c6_no_mutation_after_alloc (clock : Nat → ℚ) (size : Nat) (w : Bool) :
    Event.matmul (TENSOR_A_CPU size) (TENSOR_B_CPU size) ∈
      benchmark_mps clock size w ∧
    Event.matmul (TENSOR_A_MPS size) (TENSOR_B_MPS size) ∈
      benchmark_mps clock size w ∧
    ∀ a b, Event.matmul a b ∈ benchmark_mps clock size w →
      (a = TENSOR_A_CPU size ∧ b = TENSOR_B_CPU size) ∨
      (a = TENSOR_A_MPS size ∧ b = TENSOR_B_MPS size) ∨
      (a ∉ [TENSOR_A_CPU size, TENSOR_B_CPU size,
            TENSOR_A_MPS size, TENSOR_B_MPS size] ∧
       b ∉ [TENSOR_A_CPU size, TENSOR_B_CPU size,
            TENSOR_A_MPS size, TENSOR_B_MPS size]) := by
  refine ⟨by simp [benchmark_mps], by simp [benchmark_mps], ?_⟩
  intro a b hab
  have hsplit : Event.matmul a b ∈
      (if w then warmupTrace (warmupStartGen size) 100 else []) ∨
      ((a = TENSOR_A_CPU size ∧ b = TENSOR_B_CPU size) ∨
       (a = TENSOR_A_MPS size ∧ b = TENSOR_B_MPS size)) := by
    simp only [benchmark_mps, List.mem_cons, List.mem_append,
      List.not_mem_nil, or_false] at hab
    rcases hab with h | h | h | h | h | h
    · exact Event.noConfusion h
    · exact Event.noConfusion h
    · exact Event.noConfusion h
    · exact Event.noConfusion h
    · exact Or.inl h
    · rcases h with h | h | h | h | h | h | h | h
      · exact Event.noConfusion h
      · obtain ⟨rfl, rfl⟩ := Event.matmul.inj h
        exact Or.inr (Or.inl ⟨rfl, rfl⟩)
      · exact Event.noConfusion h
      · exact Event.noConfusion h
      · exact Event.noConfusion h
      · obtain ⟨rfl, rfl⟩ := Event.matmul.inj h
        exact Or.inr (Or.inr ⟨rfl, rfl⟩)
      · exact Event.noConfusion h
      · exact Event.noConfusion h
  rcases hsplit with hw | hcase
  · right; right
    have hw' : Event.matmul a b ∈ warmupTrace (warmupStartGen size) 100 := by
      cases w with
      | false => simp at hw
      | true => simpa using hw
    obtain ⟨_, _, _, hga, _, _, _, hgb⟩ :=
      warmup_operands 100 (warmupStartGen size) a b hw'
    exact ⟨warmup_tensor_fresh size a hga, warmup_tensor_fresh size b hgb⟩
  · rcases hcase with h | h
    · exact Or.inl h
    · exact Or.inr (Or.inl h)

/-- C6 witness: the two timed multiplications at a concrete clock and size. -/
theorem c6_no_mutation_after_alloc_witness :
    Event.matmul (TENSOR_A_CPU 4) (TENSOR_B_CPU 4) ∈
      benchmark_mps (fun _ => 0) 4 false :=
  (c6_no_mutation_after_alloc (fun _ => 0) 4 false).1

/-- C7: exactly one failure condition is handled — accelerator unavailable,
by printing a message and running no measurement step; on the available path
a failure raised at any step propagates out unchanged (no handler anywhere),
and when nothing fails the whole script runs to completion. -/
theorem c7_single_handled_failure (clock : Nat → ℚ) (k : Nat) (msg : String) :
    runE (fun _ => none) 0 (script false clock) =
      Except.ok [Event.print Line.notFound] ∧
    runE (fun _ => none) 0 (script true clock) =
      Except.ok (script true clock) ∧
    (k < (script true clock).length →
      runE (fun i => if i = k then some msg else none) 0 (script true clock) =
        Except.error msg) := by
  refine ⟨rfl, runE_none _ 0, ?_⟩
  intro hk
  have h := runE_single_fail msg (script true clock) 0 k hk
  simpa using h

theorem warmupTrace_length (n g : Nat) :
    (warmupTrace g n).length = 3 * n := by
  induction n generalizing g with
  | zero => rfl
  | succ n ih =>
    simp only [warmupTrace, List.length_cons, ih (g + 2)]
    omega

theorem script_true_length (clock : Nat → ℚ) :
    (script true clock).length = 315 := by
  simp [script, scriptWith, benchmark_mps, warmupTrace_length]

/-- C7 witness: a failure injected at the first step of the available path
propagates out as that very error. -/
theorem c7_single_handled_failure_witness :
    0 < (script true (fun _ => 0)).length ∧
    runE (fun i => if i = 0 then some "boom" else none) 0
        (script true (fun _ => 0)) = Except.error "boom" :=
  ⟨by rw [script_true_length]; decide,
   (c7_single_handled_failure (fun _ => 0) 0 "boom").2.2
     (by rw [script_true_length]; decide)⟩

/-- C8: under a non-decreasing clock both printed durations are non-negative,
and each is a later clock reading minus the immediately preceding start
reading. -/
theorem c8_nonneg_durations (clock : Nat → ℚ) (size : Nat) (w : Bool)
    (hmono : ∀ i j : Nat, i ≤ j → clock i ≤ clock j) :
    outputLines (benchmark_mps clock size w) =
      [Line.cpuDur (clock 1 - clock 0), Line.mpsDur (clock 3 - clock 2)] ∧
    0 ≤ clock 1 - clock 0 ∧ 0 ≤ clock 3 - clock 2 := by
  refine ⟨benchmark_output clock size w, ?_, ?_⟩
  · exact sub_nonneg.mpr (hmono 0 1 (by omega))
  · exact sub_nonneg.mpr (hmono 2 3 (by omega))

/-- C8 witness: the conclusion at the constant-zero clock. -/
theorem c8_nonneg_durations_witness :
    outputLines (benchmark_mps (fun _ => 0) 4 false) =
      [Line.cpuDur ((0 : ℚ) - 0), Line.mpsDur ((0 : ℚ) - 0)] ∧
    0 ≤ (0 : ℚ) - 0 ∧ 0 ≤ (0 : ℚ) - 0 :=
  c8_nonneg_durations (fun _ => 0) 4 false (fun _ _ _ => le_refl 0)

/-- C9: the warm-up flag parameter is spelled `warmpup`, so a call passing
the keyword `warmup` raises an uncaught `TypeError` instead of setting the
flag, while the keyword `warmpup` does set it. -/
theorem c9_keyword_misspelling (clock : Nat → ℚ) (b : Bool) :
    acceptsKeywordArgument "warmup" = false ∧
    acceptsKeywordArgument "warmpup" = true ∧
    callWarmupKeyword clock "warmup" b =
      Except.error "benchmark_mps() got an unexpected keyword argument warmup" ∧
    callWarmupKeyword clock "warmpup" b =
      Except.ok (benchmark_mps clock 10000 b) :=
  ⟨rfl, rfl, rfl, rfl⟩

/-- C9 witness: the rejected and accepted keyword calls at a concrete clock
and flag value. -/
theorem c9_keyword_misspelling_witness :
    callWarmupKeyword (fun _ => 0) "warmup" false =
      Except.error "benchmark_mps() got an unexpected keyword argument warmup" :=
  (c9_keyword_misspelling (fun _ => 0) false).2.2.1

/-- C10: the four timed tensors are identical between two runs that differ
only in the warm-up flag (the warm-up draws happen after all four are
allocated), and the timed multiplication events coincide as well — the flag
affects timing only, never the operands of the timed multiplications. -/
theorem c10_warmup_flag_noninterference (clock clock2 : Nat → ℚ) (size : Nat) :
    (allocatedTensors (benchmark_mps clock size true)).take 4 =
      (allocatedTensors (benchmark_mps clock2 size false)).take 4 ∧
    (timedSegments (benchmark_mps clock size true))[0]? =
      (timedSegments (benchmark_mps clock2 size false))[0]? ∧
    (timedSegments (benchmark_mps clock size true))[2]? =
      (timedSegments (benchmark_mps clock2 size false))[2]? ∧
    (timedSegments (benchmark_mps clock size true))[0]? =
      some [Event.matmul (TENSOR_A_CPU size) (TENSOR_B_CPU size)] ∧
    (timedSegments (benchmark_mps clock size true))[2]? =
      some [Event.matmul (TENSOR_A_MPS size) (TENSOR_B_MPS size)] := by
  refine ⟨?_, ?_, ?_, ?_, ?_⟩
  · rw [allocated_take4 clock size true, allocated_take4 clock2 size false]
  · rw [timedSegments_benchmark clock size true,
      timedSegments_benchmark clock2 size false]
    rfl
  · rw [timedSegments_benchmark clock size true,
      timedSegments_benchmark clock2 size false]
    rfl
  · rw [timedSegments_benchmark clock size true]
    rfl
  · rw [timedSegments_benchmark clock size true]
    rfl

/-- C10 witness: the allocated tensors at two concrete clocks agree. -/
theorem c10_warmup_flag_noninterference_witness :
    (allocatedTensors (benchmark_mps (fun _ => 0) 4 true)).take 4 =
      (allocatedTensors (benchmark_mps (fun _ => 1) 4 false)).take 4 :=
  (c10_warmup_flag_noninterference (fun _ => 0) (fun _ => 1) 4).1

end AppleMps
